import Mathlib

/-!
Shallow embedding of `go-openapi3-validation-middleware` (src/middleware.go and
src/response_writer.go).

External collaborators (the kin-openapi router and validation engine, the
OpenTelemetry SDK) are modelled as opaque function parameters, exactly as the
spec treats them.  The middleware's own logic — route-error wrapping, error
classification via `errors.As` unwrap chains, the buffering response writer,
default JSON error reporting, tracer selection, and stage composition — is
translated directly from the Go source.
-/

set_option maxHeartbeats 1000000

/-- Opaque handle standing for a Go `interface` value we do not inspect
(`schemaErr.Value`, `*openapi3.Schema`, `*openapi3filter.Options`, routes). -/
abbrev Handle := Nat

/-- Data carried by `*openapi3.SchemaError` that the middleware reads:
`Reason`, `SchemaField`, `Value`, `Schema` (see `toReport` in middleware.go). -/
structure SchemaErrorData where
  reason : String
  schemaField : String
  value : Handle
  schema : Handle
deriving DecidableEq, Repr

/-- Go `error` values flowing through the middleware, as a discriminated union.
Constructors mirror the dynamic types the code distinguishes with `errors.As`
and `errors.Is`:
* `nilErr` — Go's nil error value (only ever reached as the possibly-nil
  `Err` field of a request/response error; `errors.As`/`errors.Is` on nil
  match nothing);
* `findRouteWrap` — the middleware's own `*findRouteErr` wrapper; `Unwrap`
  returns the inner error;
* `requestErr` — `*openapi3filter.RequestError`; its `Err` field (possibly
  `nilErr`) is the inner error;
* `responseErr` — `*openapi3filter.ResponseError`, likewise;
* `schemaViolation` — `*openapi3.SchemaError` (origin chain not modelled:
  the middleware never unwraps past a schema error);
* `pathNotFound` / `methodNotAllowed` — the router's sentinel errors
  `routers.ErrPathNotFound` / `routers.ErrMethodNotAllowed`;
* `generic` — any other error, with its `Error()` string and `%T` kind. -/
inductive GoError where
  | nilErr
  | findRouteWrap (inner : GoError)
  | requestErr (inner : GoError)
  | responseErr (inner : GoError)
  | schemaViolation (d : SchemaErrorData)
  | pathNotFound
  | methodNotAllowed
  | generic (message kind : String)
deriving DecidableEq, Repr

/-- Model of `err.Error()` for each modelled error.  `findRouteErr.Error()`
delegates to the wrapped error (middleware.go); external libraries' message
strings are carried only into generic bodies and inspected nowhere. -/
def GoError.message : GoError → String
  | .nilErr => ""
  | .findRouteWrap i => i.message
  | .requestErr _ => "request error"
  | .responseErr _ => "response error"
  | .schemaViolation d => d.reason
  | .pathNotFound => "no matching operation was found"
  | .methodNotAllowed => "method not allowed"
  | .generic m _ => m

/-- Model of `fmt.Sprintf("%T", err)` — the dynamic type name used in generic
bodies. -/
def GoError.kind : GoError → String
  | .nilErr => "<nil>"
  | .findRouteWrap _ => "*openapi3middleware.findRouteErr"
  | .requestErr _ => "*openapi3filter.RequestError"
  | .responseErr _ => "*openapi3filter.ResponseError"
  | .schemaViolation _ => "*openapi3.SchemaError"
  | .pathNotFound => "*routers.RouteError"
  | .methodNotAllowed => "*routers.RouteError"
  | .generic _ k => k

/-- Model of `errors.As(e, &frErr)` followed by `frErr.Unwrap()`: walk the
unwrap chain for a `*findRouteErr` and return the error it wraps.
`errors.As` checks the current error before unwrapping; a nil inner error
ends the walk without a match. -/
def GoError.asFindRouteErr : GoError → Option GoError
  | .findRouteWrap i => some i
  | .requestErr i => i.asFindRouteErr
  | .responseErr i => i.asFindRouteErr
  | _ => none

/-- Model of `errors.As(e, &requestErr)`: the first
`*openapi3filter.RequestError` on the unwrap chain, or `none`. -/
def GoError.asRequestErr : GoError → Option GoError
  | .requestErr i => some (.requestErr i)
  | .findRouteWrap i => i.asRequestErr
  | .responseErr i => i.asRequestErr
  | _ => none

/-- Model of `errors.As(e, &responseErr)`: the first
`*openapi3filter.ResponseError` on the unwrap chain, or `none`. -/
def GoError.asResponseErr : GoError → Option GoError
  | .responseErr i => some (.responseErr i)
  | .findRouteWrap i => i.asResponseErr
  | .requestErr i => i.asResponseErr
  | _ => none

/-- Model of `errors.As(e, &schemaErr)`: the first `*openapi3.SchemaError` on
the unwrap chain, returning its data. -/
def GoError.asSchemaErr : GoError → Option SchemaErrorData
  | .schemaViolation d => some d
  | .findRouteWrap i => i.asSchemaErr
  | .requestErr i => i.asSchemaErr
  | .responseErr i => i.asSchemaErr
  | _ => none

/-- The `Err` field of a `RequestError` / `ResponseError`. -/
def GoError.errField : GoError → GoError
  | .requestErr i => i
  | .responseErr i => i
  | _ => .nilErr

/-- Model of `errors.Is(e, target)` over the modelled unwrap chain (structural
equality stands in for Go value/pointer equality; exact for the sentinel
errors the middleware's callers classify with). -/
def errorsIs : GoError → GoError → Bool
  | .findRouteWrap i, t => decide (GoError.findRouteWrap i = t) || errorsIs i t
  | .requestErr i, t => decide (GoError.requestErr i = t) || errorsIs i t
  | .responseErr i, t => decide (GoError.responseErr i = t) || errorsIs i t
  | e, t => decide (e = t)

/-- The `report` struct marshalled under `error.request` / `error.response`
(json tags: `reason`, `field`, `value`, `schema`; `origin` omitted by
`toReport`). -/
structure Report where
  reason : String
  field : String
  value : Handle
  schema : Handle
deriving DecidableEq, Repr

/-- Function `toReport`: projection of a `*openapi3.SchemaError` into the wire report. -/
def toReport (d : SchemaErrorData) : Report :=
  { reason := d.reason, field := d.schemaField, value := d.value, schema := d.schema }

/-- The three JSON document shapes the middleware ever encodes:
* `reqReport rep` — `rootError{Error: errorAggregate{Request: rep}}`,
  i.e. `{"error":{"request":{…rep…}}}`;
* `respReport rep` — `{"error":{"response":{…rep…}}}`;
* `generic m k` — `payload{Error:{Message: m, Kind: k}}`. -/
inductive Payload where
  | reqReport (rep : Report)
  | respReport (rep : Report)
  | generic (message kind : String)
deriving DecidableEq, Repr

/-- One unit of response-body content: raw bytes written by a handler's
`Write`, or one JSON document produced by `json.Encoder.Encode`. -/
inductive Chunk where
  | bytes (bs : List Nat)
  | json (p : Payload)
deriving DecidableEq, Repr

/-- One interaction with an `http.ResponseWriter`: `Header().Set(k, v)`,
`WriteHeader(code)`, or `Write(chunk)`. -/
inductive WriterOp where
  | setHeader (k v : String)
  | writeHeader (code : Nat)
  | write (c : Chunk)
deriving DecidableEq, Repr

/-- Model of `http.Header.Set`: replace the value under a key, or append a new entry. -/
def setHeaderMap (hs : List (String × String)) (k v : String) : List (String × String) :=
  if hs.any (fun p => p.1 = k) then
    hs.map (fun p => if p.1 = k then (k, v) else p)
  else hs ++ [(k, v)]

/-- Fold a sequence of `Header().Set` calls over a header map. -/
def applyHeaderSets (hs : List (String × String)) (sets : List (String × String)) :
    List (String × String) :=
  sets.foldl (fun m p => setHeaderMap m p.1 p.2) hs

/-- State of the real `http.ResponseWriter` provided by `net/http`:
the current (mutable) header map, the headers frozen at the moment the
response was committed (first `WriteHeader` or `Write`), the committed status
code (first `WriteHeader` wins; a `Write` before any `WriteHeader` commits
status 200), and the body chunks written so far. -/
structure RealWriter where
  headers : List (String × String)
  sentHeaders : Option (List (String × String))
  status : Option Nat
  body : List Chunk
deriving DecidableEq, Repr

/-- The fresh writer `net/http` hands to the outermost handler. -/
def RealWriter.init : RealWriter := ⟨[], none, none, []⟩

/-- Apply one writer operation to the real response writer, with `net/http`
semantics: header mutations after commit have no client-visible effect, the
first `WriteHeader` wins, and a body write commits status 200 if no status
was set yet. -/
def RealWriter.applyOp (w : RealWriter) : WriterOp → RealWriter
  | .setHeader k v => { w with headers := setHeaderMap w.headers k v }
  | .writeHeader c =>
    match w.status with
    | some _ => w
    | none => { w with status := some c, sentHeaders := some w.headers }
  | .write ch =>
    match w.status with
    | some _ => { w with body := w.body ++ [ch] }
    | none =>
      { w with status := some 200, sentHeaders := some w.headers, body := w.body ++ [ch] }

/-- Run a sequence of writer operations against the real writer. -/
def runOps (w : RealWriter) (ops : List WriterOp) : RealWriter :=
  ops.foldl RealWriter.applyOp w

/-- The status line the client receives: `net/http` sends 200 for a handler
that returned without committing a status. -/
def RealWriter.clientStatus (w : RealWriter) : Nat := w.status.getD 200

/-- The header block the client receives: the headers frozen at commit time
(or the final map, for an empty 200 response committed at handler return). -/
def RealWriter.clientHeaders (w : RealWriter) : List (String × String) :=
  w.sentHeaders.getD w.headers

/-- The body the client receives. -/
def RealWriter.clientBody (w : RealWriter) : List Chunk := w.body

/-- State of `bufferingResponseWriter` (response_writer.go) as observed after
the wrapped handler returns: the `Header().Set` calls it forwarded to the
real writer (headers are not buffered), the buffered body (`buf`), and the
recorded status code (`statusCode`, zero meaning "never set"). -/
structure BufState where
  headerSets : List (String × String)
  buf : List Chunk
  statusCode : Nat
deriving DecidableEq, Repr

/-- Apply one writer operation to the buffering writer:
`Write` appends to `buf` and always succeeds, `Header()` mutations pass
through to the real writer, and `WriteHeader` overwrites `statusCode`
(`rw.statusCode = statusCode` — every call overwrites). -/
def BufState.applyOp (s : BufState) : WriterOp → BufState
  | .setHeader k v => { s with headerSets := s.headerSets ++ [(k, v)] }
  | .write ch => { s with buf := s.buf ++ [ch] }
  | .writeHeader c => { s with statusCode := c }

/-- Interpret a handler's writer interactions against a fresh
`bufferingResponseWriter` (`newBufferingResponseWriter`). -/
def runBuffering (ops : List WriterOp) : BufState :=
  ops.foldl BufState.applyOp ⟨[], [], 0⟩

/-- The `Header().Set` calls the buffering writer forwarded to the real
writer while the handler ran, as writer operations. -/
def BufState.hdrOps (s : BufState) : List WriterOp :=
  s.headerSets.map (fun p => WriterOp.setHeader p.1 p.2)

/-- Operations `bufferingResponseWriter.emit` performs on the real writer:
`WriteHeader(statusCode)` when a status was recorded, then the whole buffered
body via `buf.WriteTo` (which writes nothing for an empty buffer). -/
def BufState.emitOps (s : BufState) : List WriterOp :=
  (if s.statusCode ≠ 0 then [WriterOp.writeHeader s.statusCode] else [])
    ++ s.buf.map WriterOp.write

/-- An OpenTelemetry `trace.TracerProvider`, identified opaquely. -/
abbrev TracerProvider := Nat

/-- The data of a span found on a context: the provider that created it
(`span.TracerProvider()`) and whether `span.SpanContext().IsValid()`. -/
structure SpanInfo where
  provider : TracerProvider
  valid : Bool
deriving DecidableEq, Repr

/-- A request's `context.Context`, carrying at most an active span
(`trace.SpanFromContext` yields a no-op span, with an invalid span context,
when none is present — modelled as `none`). -/
structure Context where
  span : Option SpanInfo
deriving DecidableEq, Repr

/-- An `*http.Request`: an opaque identity plus its context. -/
structure Request where
  rid : Nat
  ctx : Context
deriving DecidableEq, Repr

/-- Model of `r.WithContext(ctx)`: the same request carrying a new context. -/
def Request.withContext (r : Request) (c : Context) : Request := { r with ctx := c }

/-- A `trace.Tracer`: the provider it came from and the instrumentation name
passed to `TracerProvider.Tracer`. -/
structure Tracer where
  provider : TracerProvider
  scope : String
deriving DecidableEq, Repr

/-- The `tracerName` constant of middleware.go. -/
def tracerName : String := "github.com/aereal/go-openapi3-validation-middleware"

/-- The route plus path parameters returned by `routers.Router.FindRoute`. -/
structure RouteMatch where
  route : Handle
  pathParams : List (String × String)
deriving DecidableEq, Repr

/-- The external route matcher: given a request, a route match or an error. -/
def Router := Request → Except GoError RouteMatch

/-- An `*openapi3filter.RequestValidationInput` as assembled by
`buildRequestValidationInputFromRequest`. -/
structure RequestValidationInput where
  request : Request
  pathParams : List (String × String)
  route : Handle
  options : Option Handle
deriving DecidableEq, Repr

/-- An `*openapi3filter.ResponseValidationInput` as assembled by
`WithResponseValidation`: the request input, the captured status (zero
replaced by 200 before validation), the live header map, and the captured
body bytes (`SetBodyBytes`). -/
structure ResponseValidationInput where
  requestValidationInput : RequestValidationInput
  status : Nat
  header : List (String × String)
  body : List Chunk
deriving DecidableEq, Repr

/-- The external schema validation engine (`openapi3filter.ValidateRequest`
and `openapi3filter.ValidateResponse`): `none` for conforming input, or the
error it reports.  It receives the span context the stage started. -/
structure ValidationEngine where
  validateRequest : Context → RequestValidationInput → Option GoError
  validateResponse : Context → ResponseValidationInput → Option GoError

/-- A caller-supplied error reporter `func(w, r, err)`, as the writer
operations it performs for a given request and error. -/
def Reporter := Request → GoError → List WriterOp

/-- The `MiddlewareOptions` configuration struct of middleware.go. -/
structure MiddlewareOptions where
  router : Router
  validationOptions : Option Handle := none
  reportFindRouteError : Option Reporter := none
  reportRequestValidationError : Option Reporter := none
  reportResponseValidationError : Option Reporter := none
  tracerProvider : Option TracerProvider := none

/-- Function `respondJSON`: set `content-type: application/json`, write the
status, then encode the payload. -/
def respondJSON (statusCode : Nat) (p : Payload) : List WriterOp :=
  [WriterOp.setHeader "content-type" "application/json",
   WriterOp.writeHeader statusCode,
   WriterOp.write (Chunk.json p)]

/-- Function `respondErrorJSON`: a generic `{Error:{Message, Kind}}` body. -/
def respondErrorJSON (statusCode : Nat) (e : GoError) : List WriterOp :=
  respondJSON statusCode (Payload.generic e.message e.kind)

/-- Function `defaultReportFindRouteError`: generic error body, status 500. -/
def defaultReportFindRouteError (e : GoError) : List WriterOp :=
  respondErrorJSON 500 e

/-- Function `defaultReportRequestError` (middleware.go): when the error is
not an `openapi3filter.RequestError`, return without writing anything; when
its `Err` chain holds a schema error, report it as
`{"error":{"request":…}}` with status 400; otherwise a generic 400 body. -/
def defaultReportRequestError (e : GoError) : List WriterOp :=
  match e.asRequestErr with
  | none => []
  | some re =>
    match re.errField.asSchemaErr with
    | some d => respondJSON 400 (Payload.reqReport (toReport d))
    | none => respondErrorJSON 400 re

/-- Function `defaultReportResponseError` (middleware.go): the mirror of
`defaultReportRequestError` for `openapi3filter.ResponseError`, with
status 500 and the `{"error":{"response":…}}` shape. -/
def defaultReportResponseError (e : GoError) : List WriterOp :=
  match e.asResponseErr with
  | none => []
  | some re =>
    match re.errField.asSchemaErr with
    | some d => respondJSON 500 (Payload.respReport (toReport d))
    | none => respondErrorJSON 500 re

/-- Method `MiddlewareOptions.reportFindRouteError`: the caller's reporter if
supplied, else the default. -/
def MiddlewareOptions.reportFindRouteErrorOps (o : MiddlewareOptions) (r : Request)
    (e : GoError) : List WriterOp :=
  match o.reportFindRouteError with
  | some f => f r e
  | none => defaultReportFindRouteError e

/-- Method `MiddlewareOptions.reportReqError`: the caller's reporter if
supplied, else the default. -/
def MiddlewareOptions.reportReqErrorOps (o : MiddlewareOptions) (r : Request)
    (e : GoError) : List WriterOp :=
  match o.reportRequestValidationError with
  | some f => f r e
  | none => defaultReportRequestError e

/-- Method `MiddlewareOptions.reportRespError`: the caller's reporter if
supplied, else the default. -/
def MiddlewareOptions.reportRespErrorOps (o : MiddlewareOptions) (r : Request)
    (e : GoError) : List WriterOp :=
  match o.reportResponseValidationError with
  | some f => f r e
  | none => defaultReportResponseError e

/-- Function `getTracer` (middleware.go): the explicitly supplied provider,
else the provider of a valid active span on the context, else the global
provider `otel.GetTracerProvider()` (passed here as `globalTP`). -/
def getTracer (globalTP : TracerProvider) (ctx : Context) (opts : MiddlewareOptions) :
    Tracer :=
  let tp :=
    match opts.tracerProvider with
    | some tp => tp
    | none =>
      match ctx.span with
      | some s => if s.valid then s.provider else globalTP
      | none => globalTP
  ⟨tp, tracerName⟩

/-- Model of `tracer.Start(ctx, name)`: the returned context carries the span
just started (an SDK span, whose span context is valid). -/
def Tracer.startCtx (t : Tracer) (_ : Context) : Context :=
  ⟨some ⟨t.provider, true⟩⟩

/-- Function `buildRequestValidationInputFromRequest`: delegate to
`router.FindRoute`, wrapping any failure in `findRouteErr`. -/
def buildRequestValidationInputFromRequest (router : Router) (r : Request)
    (options : Option Handle) : Except GoError RequestValidationInput :=
  match router r with
  | .error e => .error (.findRouteWrap e)
  | .ok m =>
    .ok { request := r, pathParams := m.pathParams, route := m.route, options := options }

/-- The observable result of running a handler: the operations it performed
on the writer it was given, and how many times the innermost wrapped
handler was invoked (instrumentation for the never-runs / exactly-once
claims; each stage forwards its inner handler's count unchanged). -/
structure HResult where
  ops : List WriterOp
  calls : Nat
deriving DecidableEq, Repr

/-- An `http.Handler`, as the interaction trace it produces per request. -/
def Handler := Request → HResult

/-- The `middleware` type alias: `func(next http.Handler) http.Handler`. -/
def Middleware := Handler → Handler

/-- The context a stage installs on the request it forwards: the context
returned by `tracer.Start` on the incoming request context. -/
def stageCtx (globalTP : TracerProvider) (o : MiddlewareOptions) (r : Request) : Context :=
  (getTracer globalTP r.ctx o).startCtx r.ctx

/-- The `ResponseValidationInput` built from a request input and the captured
buffer state: captured status (200 when unset), the live header map (the
fresh writer's headers after the handler's `Header().Set` calls), and the
buffered body. -/
def mkResponseInput (ri : RequestValidationInput) (st : BufState) : ResponseValidationInput :=
  { requestValidationInput := ri
    status := if st.statusCode = 0 then 200 else st.statusCode
    header := applyHeaderSets [] st.headerSets
    body := st.buf }

/-- Function `WithResponseValidation` (middleware.go): substitute the
buffering writer, run the wrapped handler, rebuild the validation input from
the original request, validate the captured response, and on success `emit`
the captured status and body; on any failure report instead — the captured
body is only written by `emit`. -/
def WithResponseValidation (globalTP : TracerProvider) (eng : ValidationEngine)
    (options : MiddlewareOptions) : Middleware :=
  fun next r =>
    let ctx2 := stageCtx globalTP options r
    let hres := next (r.withContext ctx2)
    let st := runBuffering hres.ops
    match buildRequestValidationInputFromRequest options.router r options.validationOptions with
    | .error err =>
      match err.asFindRouteErr with
      | some actualErr =>
        ⟨st.hdrOps ++ options.reportFindRouteErrorOps r actualErr, hres.calls⟩
      | none => ⟨st.hdrOps ++ respondErrorJSON 500 err, hres.calls⟩
    | .ok ri =>
      match eng.validateResponse ctx2 (mkResponseInput ri st) with
      | some err => ⟨st.hdrOps ++ options.reportRespErrorOps r err, hres.calls⟩
      | none => ⟨st.hdrOps ++ st.emitOps, hres.calls⟩

/-- Function `WithRequestValidation` (middleware.go): build the validation
input (reporting route failures with the unwrapped cause, other build
failures as generic 500), validate the request (reporting failures without
calling the wrapped handler), and only on success invoke the wrapped
handler on the untouched writer. -/
def WithRequestValidation (globalTP : TracerProvider) (eng : ValidationEngine)
    (options : MiddlewareOptions) : Middleware :=
  fun next r =>
    let ctx2 := stageCtx globalTP options r
    match buildRequestValidationInputFromRequest options.router r options.validationOptions with
    | .error err =>
      match err.asFindRouteErr with
      | some actualErr => ⟨options.reportFindRouteErrorOps r actualErr, 0⟩
      | none => ⟨respondErrorJSON 500 err, 0⟩
    | .ok input =>
      match eng.validateRequest ctx2 input with
      | some err => ⟨options.reportReqErrorOps r err, 0⟩
      | none => next (r.withContext ctx2)

/-- Function `WithValidation` (middleware.go): request validation wrapped
around response validation wrapped around the handler. -/
def WithValidation (globalTP : TracerProvider) (eng : ValidationEngine)
    (options : MiddlewareOptions) : Middleware :=
  let req := WithRequestValidation globalTP eng options
  let resp := WithResponseValidation globalTP eng options
  fun next => req (resp next)

/-- The body chunks a trace writes, in order (what `bufferingResponseWriter`
accumulates in `buf`). -/
def writeChunksOf (ops : List WriterOp) : List Chunk :=
  ops.filterMap (fun op => match op with | .write c => some c | _ => none)

/-- The `Header().Set` calls of a trace, in order. -/
def headerSetsOf (ops : List WriterOp) : List (String × String) :=
  ops.filterMap (fun op => match op with | .setHeader k v => some (k, v) | _ => none)

/-- The last `WriteHeader` argument of a trace, zero when there is none. -/
def lastStatusOf (ops : List WriterOp) : Nat :=
  ops.foldl (fun s op => match op with | .writeHeader c => c | _ => s) 0

/-- Whether the full response-validation path — route match and response
schema validation of the captured output — succeeds for a request. -/
def respValidationPasses (globalTP : TracerProvider) (eng : ValidationEngine)
    (options : MiddlewareOptions) (next : Handler) (r : Request) : Bool :=
  let ctx2 := stageCtx globalTP options r
  let st := runBuffering (next (r.withContext ctx2)).ops
  match buildRequestValidationInputFromRequest options.router r options.validationOptions with
  | .error _ => false
  | .ok ri => (eng.validateResponse ctx2 (mkResponseInput ri st)).isNone

/-- Whether the full request-validation path — route match and request schema
validation — succeeds for a request. -/
def reqValidationPasses (globalTP : TracerProvider) (eng : ValidationEngine)
    (options : MiddlewareOptions) (r : Request) : Bool :=
  let ctx2 := stageCtx globalTP options r
  match buildRequestValidationInputFromRequest options.router r options.validationOptions with
  | .error _ => false
  | .ok input => (eng.validateRequest ctx2 input).isNone

theorem runOps_append (w : RealWriter) (a b : List WriterOp) :
    runOps w (a ++ b) = runOps (runOps w a) b := by
  simp [runOps, List.foldl_append]

theorem foldl_bufApplyOp (s : BufState) (ops : List WriterOp) :
    ops.foldl BufState.applyOp s =
      ⟨s.headerSets ++ headerSetsOf ops, s.buf ++ writeChunksOf ops,
        ops.foldl (fun c op => match op with | .writeHeader c' => c' | _ => c) s.statusCode⟩ := by
  induction ops generalizing s with
  | nil => simp [headerSetsOf, writeChunksOf]
  | cons op rest ih =>
    cases op <;> simp [BufState.applyOp, headerSetsOf, writeChunksOf, ih]

/-- What a fresh buffering writer records from a handler trace: the header
sets in order, the written chunks in order, and the last status written. -/
theorem runBuffering_spec (ops : List WriterOp) :
    runBuffering ops = ⟨headerSetsOf ops, writeChunksOf ops, lastStatusOf ops⟩ := by
  simp [runBuffering, foldl_bufApplyOp, lastStatusOf]

theorem runOps_setHeaders (w : RealWriter) (hs : List (String × String)) :
    runOps w (hs.map (fun p => WriterOp.setHeader p.1 p.2)) =
      { w with headers := applyHeaderSets w.headers hs } := by
  induction hs generalizing w with
  | nil => simp [runOps, applyHeaderSets]
  | cons p rest ih =>
    simpa [runOps, applyHeaderSets, RealWriter.applyOp] using ih _

theorem runOps_writes_committed (w : RealWriter) (cs : List Chunk) (s : Nat)
    (h : w.status = some s) :
    runOps w (cs.map WriterOp.write) = { w with body := w.body ++ cs } := by
  induction cs generalizing w with
  | nil => simp [runOps]
  | cons c rest ih =>
    have h2 : (w.applyOp (WriterOp.write c)).status = some s := by
      simp [RealWriter.applyOp, h]
    have := ih (w.applyOp (WriterOp.write c)) h2
    simp [runOps, RealWriter.applyOp, h] at this ⊢
    simp [this]

/-- Client view of `emit()` run on a fresh writer whose headers were already
mutated to `h` by the handler: the client gets exactly the captured body,
the recorded status (200 when none was recorded), and the headers `h`. -/
theorem emit_client_view (h : List (String × String)) (st : BufState) :
    ((runOps ⟨h, none, none, []⟩ st.emitOps).clientBody = st.buf) ∧
    ((runOps ⟨h, none, none, []⟩ st.emitOps).clientStatus =
      (if st.statusCode = 0 then 200 else st.statusCode)) ∧
    ((runOps ⟨h, none, none, []⟩ st.emitOps).clientHeaders = h) := by
  by_cases hz : st.statusCode = 0
  · cases hbuf : st.buf with
    | nil =>
      simp [BufState.emitOps, hz, hbuf, runOps, RealWriter.clientBody,
        RealWriter.clientStatus, RealWriter.clientHeaders]
    | cons c cs =>
      have hrun : runOps (⟨h, none, none, []⟩ : RealWriter) st.emitOps =
          ⟨h, some h, some 200, st.buf⟩ := by
        have step1 : (⟨h, none, none, []⟩ : RealWriter).applyOp (WriterOp.write c) =
            ⟨h, some h, some 200, [c]⟩ := by
          simp [RealWriter.applyOp]
        have := runOps_writes_committed ⟨h, some h, some 200, [c]⟩ cs 200 rfl
        simp [BufState.emitOps, hz, hbuf, runOps, step1] at this ⊢
        simp [this]
      simp [hrun, hbuf, RealWriter.clientBody, RealWriter.clientStatus,
        RealWriter.clientHeaders, hz]
  · have hrun : runOps (⟨h, none, none, []⟩ : RealWriter) st.emitOps =
        ⟨h, some h, some st.statusCode, st.buf⟩ := by
      have step1 : (⟨h, none, none, []⟩ : RealWriter).applyOp
          (WriterOp.writeHeader st.statusCode) = ⟨h, some h, some st.statusCode, []⟩ := by
        simp [RealWriter.applyOp]
      have := runOps_writes_committed ⟨h, some h, some st.statusCode, []⟩ st.buf
        st.statusCode rfl
      simp [BufState.emitOps, hz, runOps, step1] at this ⊢
      simp [this]
    simp [hrun, RealWriter.clientBody, RealWriter.clientStatus, RealWriter.clientHeaders, hz]

theorem runOps_init_respondJSON (code : Nat) (p : Payload) :
    runOps RealWriter.init (respondJSON code p) =
      ⟨[("content-type", "application/json")], some [("content-type", "application/json")],
        some code, [Chunk.json p]⟩ := by
  simp [runOps, respondJSON, RealWriter.applyOp, RealWriter.init, setHeaderMap]

/-- The request a stage hands to its inner handler: context replaced by the
one `tracer.Start` returned. -/
def stageInnerRequest (globalTP : TracerProvider) (options : MiddlewareOptions)
    (r : Request) : Request :=
  r.withContext (stageCtx globalTP options r)

/-- The buffering-writer state captured from the wrapped handler inside
`WithResponseValidation`. -/
def handlerState (globalTP : TracerProvider) (options : MiddlewareOptions)
    (next : Handler) (r : Request) : BufState :=
  runBuffering (next (stageInnerRequest globalTP options r)).ops

/-- The real writer as the client sees it after the response-validation
middleware processed one request starting from a fresh writer. -/
def clientAfterResponseStage (globalTP : TracerProvider) (eng : ValidationEngine)
    (options : MiddlewareOptions) (next : Handler) (r : Request) : RealWriter :=
  runOps RealWriter.init (WithResponseValidation globalTP eng options next r).ops

theorem lastStatusOf_no_writeHeader (ops : List WriterOp)
    (h : ∀ c, WriterOp.writeHeader c ∉ ops) : lastStatusOf ops = 0 := by
  have key : ∀ (a : Nat) (l : List WriterOp), (∀ c, WriterOp.writeHeader c ∉ l) →
      l.foldl (fun s op => match op with | .writeHeader c => c | _ => s) a = a := by
    intro a l
    induction l generalizing a with
    | nil => intro _; rfl
    | cons op rest ih =>
      intro hl
      cases op with
      | writeHeader c => exact absurd (List.mem_cons_self _ _) (hl c)
      | setHeader k v =>
        exact ih a (fun c hc => hl c (List.mem_cons_of_mem _ hc))
      | write ch =>
        exact ih a (fun c hc => hl c (List.mem_cons_of_mem _ hc))
  exact key 0 ops h

theorem lastStatusOf_last_wins (pre post : List WriterOp) (c : Nat)
    (hpost : ∀ c', WriterOp.writeHeader c' ∉ post) :
    lastStatusOf (pre ++ WriterOp.writeHeader c :: post) = c := by
  have key : ∀ (a : Nat) (l : List WriterOp), (∀ c', WriterOp.writeHeader c' ∉ l) →
      l.foldl (fun s op => match op with | .writeHeader c' => c' | _ => s) a = a := by
    intro a l
    induction l generalizing a with
    | nil => intro _; rfl
    | cons op rest ih =>
      intro hl
      cases op with
      | writeHeader c' => exact absurd (List.mem_cons_self _ _) (hl c')
      | setHeader k v => exact ih a (fun c' hc => hl c' (List.mem_cons_of_mem _ hc))
      | write ch => exact ih a (fun c' hc => hl c' (List.mem_cons_of_mem _ hc))
  simp [lastStatusOf, List.foldl_append]
  exact key c post hpost

theorem findRouteWrap_ne_inner (c : GoError) : GoError.findRouteWrap c ≠ c := by
  intro h
  have hs := congrArg sizeOf h
  simp at hs

/-- The response-validation stage always runs its wrapped handler exactly
once and forwards its invocation count on every exit path. -/
theorem withResponseValidation_calls (globalTP : TracerProvider) (eng : ValidationEngine)
    (options : MiddlewareOptions) (next : Handler) (r : Request) :
    (WithResponseValidation globalTP eng options next r).calls
      = (next (stageInnerRequest globalTP options r)).calls := by
  unfold WithResponseValidation stageInnerRequest
  cases hbuild : buildRequestValidationInputFromRequest options.router r
      options.validationOptions with
  | error err =>
    cases herr : err.asFindRouteErr <;> simp [hbuild, herr]
  | ok ri =>
    cases hval : eng.validateResponse (stageCtx globalTP options r)
        (mkResponseInput ri (runBuffering (next (r.withContext
          (stageCtx globalTP options r))).ops)) <;> simp [hbuild, hval]

/-- Success path of the response-validation stage: the stage's writes are the
forwarded header mutations followed by `emit()`, and the client sees the
captured body, the recorded status (200 when unset), and the handler's
header map. -/
theorem withResponseValidation_success_view (globalTP : TracerProvider)
    (eng : ValidationEngine) (options : MiddlewareOptions) (next : Handler) (r : Request)
    (ri : RequestValidationInput)
    (hbuild : buildRequestValidationInputFromRequest options.router r
      options.validationOptions = .ok ri)
    (hval : eng.validateResponse (stageCtx globalTP options r)
      (mkResponseInput ri (handlerState globalTP options next r)) = none) :
    (WithResponseValidation globalTP eng options next r).ops
      = (handlerState globalTP options next r).hdrOps
        ++ (handlerState globalTP options next r).emitOps ∧
    (clientAfterResponseStage globalTP eng options next r).clientBody
      = (handlerState globalTP options next r).buf ∧
    (clientAfterResponseStage globalTP eng options next r).clientStatus
      = (if (handlerState globalTP options next r).statusCode = 0 then 200
         else (handlerState globalTP options next r).statusCode) ∧
    (clientAfterResponseStage globalTP eng options next r).clientHeaders
      = applyHeaderSets [] (handlerState globalTP options next r).headerSets := by
  have hops : (WithResponseValidation globalTP eng options next r).ops
      = (handlerState globalTP options next r).hdrOps
        ++ (handlerState globalTP options next r).emitOps := by
    unfold WithResponseValidation
    simp only [hbuild]
    have hval' := hval
    unfold handlerState stageInnerRequest at hval'
    simp [hval']
    rfl
  refine ⟨hops, ?_⟩
  have hrun : clientAfterResponseStage globalTP eng options next r
      = runOps (runOps RealWriter.init (handlerState globalTP options next r).hdrOps)
          (handlerState globalTP options next r).emitOps := by
    rw [clientAfterResponseStage, hops, runOps_append]
  have hhdr : runOps RealWriter.init (handlerState globalTP options next r).hdrOps
      = ⟨applyHeaderSets [] (handlerState globalTP options next r).headerSets,
          none, none, []⟩ := by
    have := runOps_setHeaders RealWriter.init (handlerState globalTP options next r).headerSets
    simpa [BufState.hdrOps, RealWriter.init] using this
  rw [hrun, hhdr]
  exact emit_client_view _ _

/- Concrete fixtures used by witness theorems. -/

/-- A router that matches every request to operation 0 with one path param. -/
def okRouter : Router := fun _ => .ok ⟨0, [("userID", "123")]⟩

/-- A router that fails every lookup with the not-found sentinel. -/
def notFoundRouter : Router := fun _ => .error .pathNotFound

/-- A concrete request with no active span on its context. -/
def req0 : Request := ⟨0, ⟨none⟩⟩

/-- An engine that accepts every request and every response. -/
def passEngine : ValidationEngine := ⟨fun _ _ => none, fun _ _ => none⟩

/-- A concrete schema violation (age must be an integer). -/
def ageViolation : SchemaErrorData :=
  ⟨"value must be an integer", "/properties/age", 7, 9⟩

/-- An engine that rejects every request body with a field-level violation
wrapped exactly the way `openapi3filter.ValidateRequest` wraps it. -/
def reqFailEngine : ValidationEngine :=
  ⟨fun _ _ => some (.requestErr (.schemaViolation ageViolation)), fun _ _ => none⟩

/-- An engine that rejects every response with a field-level violation. -/
def respFailEngine : ValidationEngine :=
  ⟨fun _ _ => none, fun _ _ => some (.responseErr (.schemaViolation ageViolation))⟩

/-- A handler that sets one header, then writes one byte chunk. -/
def bytesHandler : Handler :=
  fun _ => ⟨[WriterOp.setHeader "content-type" "application/json",
             WriterOp.write (Chunk.bytes [123, 125])], 1⟩

/-- Options with all reporters and the tracer provider left nil. -/
def defaultOptionsWith (router : Router) : MiddlewareOptions :=
  { router := router }

/-- C8: the tracer used for a stage's span is chosen by a three-level
fallback — the explicitly supplied provider if non-nil, else the provider of
the context's active span when that span's context is valid, else the
process-wide default provider. -/
theorem getTracer_three_level_fallback (globalTP : TracerProvider) (ctx : Context)
    (opts : MiddlewareOptions) :
    (∀ tp, opts.tracerProvider = some tp →
      getTracer globalTP ctx opts = ⟨tp, tracerName⟩) ∧
    (opts.tracerProvider = none → ∀ s, ctx.span = some s → s.valid = true →
      getTracer globalTP ctx opts = ⟨s.provider, tracerName⟩) ∧
    (opts.tracerProvider = none →
      (ctx.span = none ∨ ∃ s, ctx.span = some s ∧ s.valid = false) →
      getTracer globalTP ctx opts = ⟨globalTP, tracerName⟩) := by
  refine ⟨?_, ?_, ?_⟩
  · intro tp h
    simp [getTracer, h]
  · intro h s hs hv
    simp [getTracer, h, hs, hv]
  · intro h hd
    rcases hd with hnone | ⟨s, hs, hv⟩
    · simp [getTracer, h, hnone]
    · simp [getTracer, h, hs, hv]

theorem getTracer_three_level_fallback_witness :
    getTracer 3 ⟨some ⟨5, true⟩⟩ { router := okRouter, tracerProvider := some 7 }
      = ⟨7, tracerName⟩ ∧
    getTracer 3 ⟨some ⟨5, true⟩⟩ { router := okRouter } = ⟨5, tracerName⟩ ∧
    getTracer 3 ⟨some ⟨5, false⟩⟩ { router := okRouter } = ⟨3, tracerName⟩ :=
  ⟨(getTracer_three_level_fallback 3 ⟨some ⟨5, true⟩⟩
      { router := okRouter, tracerProvider := some 7 }).1 7 rfl,
   (getTracer_three_level_fallback 3 ⟨some ⟨5, true⟩⟩ { router := okRouter }).2.1
      rfl ⟨5, true⟩ rfl rfl,
   (getTracer_three_level_fallback 3 ⟨some ⟨5, false⟩⟩ { router := okRouter }).2.2
      rfl (Or.inr ⟨⟨5, false⟩, rfl, rfl⟩)⟩

/-- C9: every error `buildRequestValidationInputFromRequest` returns is a
`findRouteErr` wrapper, so in both stages the generic-500 branch for a
non-route build error is unreachable: on any build failure both stages take
the route-failure reporter path. -/
theorem buildInput_error_always_findRouteErr (router : Router) (r0 : Request)
    (o : Option Handle) (globalTP : TracerProvider) (eng : ValidationEngine)
    (options : MiddlewareOptions) (next : Handler) (r : Request) (cause : GoError)
    (hroute : options.router r = .error cause) :
    (∀ e, buildRequestValidationInputFromRequest router r0 o = .error e →
      ∃ c, e = .findRouteWrap c ∧ e.asFindRouteErr = some c) ∧
    (WithRequestValidation globalTP eng options next r).ops
      = options.reportFindRouteErrorOps r cause ∧
    (WithResponseValidation globalTP eng options next r).ops
      = (handlerState globalTP options next r).hdrOps
        ++ options.reportFindRouteErrorOps r cause := by
  refine ⟨?_, ?_, ?_⟩
  · intro e he
    unfold buildRequestValidationInputFromRequest at he
    cases hr : router r0 with
    | error c =>
      rw [hr] at he
      injection he with h
      refine ⟨c, h.symm, ?_⟩
      rw [← h]
      simp [GoError.asFindRouteErr]
    | ok m => rw [hr] at he; cases he
  · unfold WithRequestValidation buildRequestValidationInputFromRequest
    simp [hroute, GoError.asFindRouteErr]
  · unfold WithResponseValidation buildRequestValidationInputFromRequest
      handlerState stageInnerRequest
    simp [hroute, GoError.asFindRouteErr]

theorem buildInput_error_always_findRouteErr_witness :
    (WithRequestValidation 0 passEngine (defaultOptionsWith notFoundRouter)
        bytesHandler req0).ops
      = MiddlewareOptions.reportFindRouteErrorOps (defaultOptionsWith notFoundRouter)
          req0 .pathNotFound :=
  (buildInput_error_always_findRouteErr notFoundRouter req0 none 0 passEngine
    (defaultOptionsWith notFoundRouter) bytesHandler req0 .pathNotFound rfl).2.1

/-- C4 counterexample: for a request-validation failure that does not
classify as an `openapi3filter.RequestError` (and carries no schema
violation), the default reporter writes nothing at all — the client does not
receive the claimed generic 400 JSON body; the writer is left untouched. -/
theorem defaultReportRequestError_unclassified_writes_nothing :
    defaultReportRequestError (GoError.generic "boom" "*errors.errorString") = [] ∧
    runOps RealWriter.init
        (defaultReportRequestError (GoError.generic "boom" "*errors.errorString"))
      = RealWriter.init :=
  ⟨rfl, rfl⟩

/-- C4 (amended): when the failure classifies as a request error but carries
no field-level schema violation, the default reporter writes the generic
`{Error:{Message, Kind}}` body with status 400; when the failure does not
classify as a request error at all, it writes nothing. -/
theorem defaultReportRequestError_amended (e re : GoError)
    (h1 : e.asRequestErr = some re) (h2 : re.errField.asSchemaErr = none) :
    defaultReportRequestError e = respondErrorJSON 400 re ∧
    (runOps RealWriter.init (defaultReportRequestError e)).clientStatus = 400 ∧
    (runOps RealWriter.init (defaultReportRequestError e)).clientBody
      = [Chunk.json (Payload.generic re.message re.kind)] ∧
    (∀ e', e'.asRequestErr = none → defaultReportRequestError e' = []) := by
  have hops : defaultReportRequestError e = respondErrorJSON 400 re := by
    unfold defaultReportRequestError
    simp [h1, h2]
  refine ⟨hops, ?_, ?_, ?_⟩
  · rw [hops, respondErrorJSON, runOps_init_respondJSON]
    rfl
  · rw [hops, respondErrorJSON, runOps_init_respondJSON]
    rfl
  · intro e' he'
    unfold defaultReportRequestError
    simp [he']

theorem defaultReportRequestError_amended_witness :
    defaultReportRequestError (GoError.requestErr (.generic "parse failure" "*errors.errorString"))
      = respondErrorJSON 400 (GoError.requestErr (.generic "parse failure" "*errors.errorString")) ∧
    (runOps RealWriter.init (defaultReportRequestError
        (GoError.requestErr (.generic "parse failure" "*errors.errorString")))).clientStatus
      = 400 :=
  ⟨(defaultReportRequestError_amended
      (GoError.requestErr (.generic "parse failure" "*errors.errorString"))
      (GoError.requestErr (.generic "parse failure" "*errors.errorString")) rfl rfl).1,
   (defaultReportRequestError_amended
      (GoError.requestErr (.generic "parse failure" "*errors.errorString"))
      (GoError.requestErr (.generic "parse failure" "*errors.errorString")) rfl rfl).2.1⟩

/-- The request-validation stage invokes its wrapped handler exactly when
route matching and request validation both succeed, and otherwise not at
all. -/
theorem withRequestValidation_calls (globalTP : TracerProvider) (eng : ValidationEngine)
    (options : MiddlewareOptions) (next : Handler) (r : Request) :
    (WithRequestValidation globalTP eng options next r).calls
      = (if reqValidationPasses globalTP eng options r
         then (next (stageInnerRequest globalTP options r)).calls else 0) := by
  unfold WithRequestValidation reqValidationPasses stageInnerRequest
  cases hbuild : buildRequestValidationInputFromRequest options.router r
      options.validationOptions with
  | error err =>
    cases herr : err.asFindRouteErr <;> simp [hbuild, herr]
  | ok input =>
    cases hval : eng.validateRequest (stageCtx globalTP options r) input <;>
      simp [hbuild, hval]

/-- C5: the combined middleware is the request stage applied to the response
stage applied to the handler; the wrapped handler never runs on a request
failing request validation, and when request validation passes it runs
exactly once per request. -/
theorem withValidation_composition (globalTP : TracerProvider) (eng : ValidationEngine)
    (options : MiddlewareOptions) (next : Handler) (r : Request)
    (f : Request → List WriterOp) :
    WithValidation globalTP eng options next
      = WithRequestValidation globalTP eng options
          (WithResponseValidation globalTP eng options next) ∧
    (reqValidationPasses globalTP eng options r = false →
      (WithValidation globalTP eng options next r).calls = 0) ∧
    (WithValidation globalTP eng options next r).calls
      = (if reqValidationPasses globalTP eng options r
         then (next (stageInnerRequest globalTP options
                  (stageInnerRequest globalTP options r))).calls
         else 0) ∧
    (WithValidation globalTP eng options (fun q => ⟨f q, 1⟩) r).calls
      = (if reqValidationPasses globalTP eng options r then 1 else 0) := by
  have hcompose : WithValidation globalTP eng options next
      = WithRequestValidation globalTP eng options
          (WithResponseValidation globalTP eng options next) := rfl
  have hcalls : ∀ nx : Handler, (WithValidation globalTP eng options nx r).calls
      = (if reqValidationPasses globalTP eng options r
         then (nx (stageInnerRequest globalTP options
                  (stageInnerRequest globalTP options r))).calls
         else 0) := by
    intro nx
    have h1 := withRequestValidation_calls globalTP eng options
      (WithResponseValidation globalTP eng options nx) r
    have h2 := withResponseValidation_calls globalTP eng options nx
      (stageInnerRequest globalTP options r)
    rw [show WithValidation globalTP eng options nx
        = WithRequestValidation globalTP eng options
            (WithResponseValidation globalTP eng options nx) from rfl]
    rw [h1, h2]
  refine ⟨hcompose, ?_, hcalls next, ?_⟩
  · intro hfail
    rw [hcalls next, hfail]
    simp
  · rw [hcalls (fun q => ⟨f q, 1⟩)]

theorem withValidation_composition_witness :
    reqValidationPasses 0 passEngine (defaultOptionsWith notFoundRouter) req0 = false ∧
    (WithValidation 0 passEngine (defaultOptionsWith notFoundRouter) bytesHandler req0).calls
      = 0 ∧
    (WithValidation 0 passEngine (defaultOptionsWith okRouter) bytesHandler req0).calls
      = 1 :=
  ⟨rfl,
   (withValidation_composition 0 passEngine (defaultOptionsWith notFoundRouter)
      bytesHandler req0 (fun _ => [])).2.1 rfl,
   ((withValidation_composition 0 passEngine (defaultOptionsWith okRouter)
      bytesHandler req0 (fun _ => [])).2.2.1).trans (by decide)⟩

/-- C2: when the matched operation's request validation fails with a
field-level schema violation and the default reporter is in place, the
wrapped handler is never invoked (the stage's output does not depend on it
and the invocation count is zero) and the client receives status 400 with
the JSON body `{"error":{"request":{…,"field": the violating path,…}}}`. -/
theorem withRequestValidation_rejects_invalid_body (globalTP : TracerProvider)
    (eng : ValidationEngine) (options : MiddlewareOptions) (next : Handler) (r : Request)
    (input : RequestValidationInput) (err re : GoError) (d : SchemaErrorData)
    (hdef : options.reportRequestValidationError = none)
    (hbuild : buildRequestValidationInputFromRequest options.router r
      options.validationOptions = .ok input)
    (hval : eng.validateRequest (stageCtx globalTP options r) input = some err)
    (hre : err.asRequestErr = some re)
    (hschema : re.errField.asSchemaErr = some d) :
    (WithRequestValidation globalTP eng options next r).calls = 0 ∧
    (∀ next' : Handler, WithRequestValidation globalTP eng options next' r
      = WithRequestValidation globalTP eng options next r) ∧
    (WithRequestValidation globalTP eng options next r).ops
      = respondJSON 400 (Payload.reqReport (toReport d)) ∧
    (runOps RealWriter.init (WithRequestValidation globalTP eng options next r).ops).clientStatus
      = 400 ∧
    ∃ rep : Report,
      (runOps RealWriter.init (WithRequestValidation globalTP eng options next r).ops).clientBody
        = [Chunk.json (Payload.reqReport rep)] ∧ rep.field = d.schemaField := by
  have hstage : ∀ next' : Handler, WithRequestValidation globalTP eng options next' r
      = ⟨respondJSON 400 (Payload.reqReport (toReport d)), 0⟩ := by
    intro next'
    unfold WithRequestValidation
    simp [hbuild, hval, MiddlewareOptions.reportReqErrorOps, hdef,
      defaultReportRequestError, hre, hschema]
  refine ⟨?_, ?_, ?_, ?_, ?_⟩
  · rw [hstage next]
  · intro next'
    rw [hstage next', hstage next]
  · rw [hstage next]
  · rw [hstage next, runOps_init_respondJSON]
    rfl
  · refine ⟨toReport d, ?_, rfl⟩
    rw [hstage next, runOps_init_respondJSON]
    rfl

theorem withRequestValidation_rejects_invalid_body_witness :
    (WithRequestValidation 0 reqFailEngine (defaultOptionsWith okRouter)
        bytesHandler req0).calls = 0 ∧
    (WithRequestValidation 0 reqFailEngine (defaultOptionsWith okRouter)
        bytesHandler req0).ops
      = respondJSON 400 (Payload.reqReport (toReport ageViolation)) ∧
    (runOps RealWriter.init (WithRequestValidation 0 reqFailEngine
        (defaultOptionsWith okRouter) bytesHandler req0).ops).clientStatus = 400 :=
  ⟨(withRequestValidation_rejects_invalid_body 0 reqFailEngine
      (defaultOptionsWith okRouter) bytesHandler req0
      ⟨req0, [("userID", "123")], 0, none⟩
      (.requestErr (.schemaViolation ageViolation))
      (.requestErr (.schemaViolation ageViolation)) ageViolation
      rfl rfl rfl rfl rfl).1,
   (withRequestValidation_rejects_invalid_body 0 reqFailEngine
      (defaultOptionsWith okRouter) bytesHandler req0
      ⟨req0, [("userID", "123")], 0, none⟩
      (.requestErr (.schemaViolation ageViolation))
      (.requestErr (.schemaViolation ageViolation)) ageViolation
      rfl rfl rfl rfl rfl).2.2.1,
   (withRequestValidation_rejects_invalid_body 0 reqFailEngine
      (defaultOptionsWith okRouter) bytesHandler req0
      ⟨req0, [("userID", "123")], 0, none⟩
      (.requestErr (.schemaViolation ageViolation))
      (.requestErr (.schemaViolation ageViolation)) ageViolation
      rfl rfl rfl rfl rfl).2.2.2.1⟩

/-- A handler that records a status twice, then writes a body chunk. -/
def doubleStatusHandler : Handler :=
  fun _ => ⟨[WriterOp.writeHeader 201, WriterOp.writeHeader 404,
             WriterOp.write (Chunk.bytes [104])], 1⟩

/-- C6: when the wrapped handler never calls `WriteHeader` on the capture
buffer, the recorded status stays at its unset default, the status handed to
response validation is 200, and on the emit path the status the client
receives is 200. -/
theorem responseStatus_defaults_to_200 (globalTP : TracerProvider)
    (eng : ValidationEngine) (options : MiddlewareOptions) (next : Handler) (r : Request)
    (ri : RequestValidationInput)
    (hnwh : ∀ c, WriterOp.writeHeader c ∉ (next (stageInnerRequest globalTP options r)).ops)
    (hbuild : buildRequestValidationInputFromRequest options.router r
      options.validationOptions = .ok ri) :
    (handlerState globalTP options next r).statusCode = 0 ∧
    (mkResponseInput ri (handlerState globalTP options next r)).status = 200 ∧
    (eng.validateResponse (stageCtx globalTP options r)
        (mkResponseInput ri (handlerState globalTP options next r)) = none →
      (clientAfterResponseStage globalTP eng options next r).clientStatus = 200) := by
  have h0 : (handlerState globalTP options next r).statusCode = 0 := by
    rw [handlerState, runBuffering_spec]
    exact lastStatusOf_no_writeHeader _ hnwh
  refine ⟨h0, ?_, ?_⟩
  · simp [mkResponseInput, h0]
  · intro hval
    have hview := withResponseValidation_success_view globalTP eng options next r ri
      hbuild hval
    rw [hview.2.2.1, h0]
    simp

theorem responseStatus_defaults_to_200_witness :
    (handlerState 0 (defaultOptionsWith okRouter) bytesHandler req0).statusCode = 0 ∧
    (mkResponseInput ⟨req0, [("userID", "123")], 0, none⟩
        (handlerState 0 (defaultOptionsWith okRouter) bytesHandler req0)).status = 200 ∧
    (clientAfterResponseStage 0 passEngine (defaultOptionsWith okRouter)
        bytesHandler req0).clientStatus = 200 :=
  have h := responseStatus_defaults_to_200 0 passEngine (defaultOptionsWith okRouter)
    bytesHandler req0 ⟨req0, [("userID", "123")], 0, none⟩
    (by intro c hc; simp [bytesHandler, stageInnerRequest] at hc) rfl
  ⟨h.1, h.2.1, h.2.2 rfl⟩

/-- C7: a routing failure is wrapped in `findRouteErr` at the point of
origin and unwrapped before reporting, so a caller-supplied router-failure
reporter is invoked with the original cause — never the wrapper (which is a
strictly different error value) — and the cause still carries its
not-found / method-not-allowed classification. -/
theorem customFindRouteReporter_receives_cause (globalTP : TracerProvider)
    (eng : ValidationEngine) (options : MiddlewareOptions) (next : Handler) (r : Request)
    (cause : GoError) (f : Reporter)
    (hrep : options.reportFindRouteError = some f)
    (hroute : options.router r = .error cause) :
    buildRequestValidationInputFromRequest options.router r options.validationOptions
      = .error (.findRouteWrap cause) ∧
    (GoError.findRouteWrap cause).asFindRouteErr = some cause ∧
    GoError.findRouteWrap cause ≠ cause ∧
    (WithRequestValidation globalTP eng options next r).ops = f r cause ∧
    (WithRequestValidation globalTP eng options next r).calls = 0 ∧
    (WithResponseValidation globalTP eng options next r).ops
      = (handlerState globalTP options next r).hdrOps ++ f r cause := by
  have hbuild : buildRequestValidationInputFromRequest options.router r
      options.validationOptions = .error (.findRouteWrap cause) := by
    unfold buildRequestValidationInputFromRequest
    simp [hroute]
  refine ⟨hbuild, rfl, findRouteWrap_ne_inner cause, ?_, ?_, ?_⟩
  · unfold WithRequestValidation
    simp [hbuild, GoError.asFindRouteErr, MiddlewareOptions.reportFindRouteErrorOps, hrep]
  · unfold WithRequestValidation
    simp [hbuild, GoError.asFindRouteErr]
  · unfold WithResponseValidation handlerState stageInnerRequest
    simp [hbuild, GoError.asFindRouteErr, MiddlewareOptions.reportFindRouteErrorOps, hrep]

/-- A router-failure reporter whose output reveals the classification of the
error it was invoked with: 404 for a not-found cause, 500 otherwise. -/
def classifyingReporter : Reporter :=
  fun _ e => [WriterOp.writeHeader (if errorsIs e GoError.pathNotFound then 404 else 500)]

theorem customFindRouteReporter_receives_cause_witness :
    (WithRequestValidation 0 passEngine
        { router := notFoundRouter, reportFindRouteError := some classifyingReporter }
        bytesHandler req0).ops = [WriterOp.writeHeader 404] :=
  ((customFindRouteReporter_receives_cause 0 passEngine
      { router := notFoundRouter, reportFindRouteError := some classifyingReporter }
      bytesHandler req0 .pathNotFound classifyingReporter rfl rfl).2.2.2.1).trans
    (by decide)

/-- C10: every `WriteHeader` call on the capture buffer overwrites the
recorded status, so the last status written is the one handed to response
validation and, on success, the one the client receives — unlike the real
response writer, where the first committed status wins. -/
theorem bufferingWriteHeader_last_wins (globalTP : TracerProvider)
    (eng : ValidationEngine) (options : MiddlewareOptions) (next : Handler) (r : Request)
    (ri : RequestValidationInput) (pre post : List WriterOp) (c : Nat)
    (hops : (next (stageInnerRequest globalTP options r)).ops
      = pre ++ WriterOp.writeHeader c :: post)
    (hpost : ∀ c', WriterOp.writeHeader c' ∉ post)
    (hc : c ≠ 0)
    (hbuild : buildRequestValidationInputFromRequest options.router r
      options.validationOptions = .ok ri) :
    (∀ (s : BufState) (c'' : Nat),
      (s.applyOp (WriterOp.writeHeader c'')).statusCode = c'') ∧
    (handlerState globalTP options next r).statusCode = c ∧
    (mkResponseInput ri (handlerState globalTP options next r)).status = c ∧
    (eng.validateResponse (stageCtx globalTP options r)
        (mkResponseInput ri (handlerState globalTP options next r)) = none →
      (clientAfterResponseStage globalTP eng options next r).clientStatus = c) ∧
    (∀ (w : RealWriter) (s0 c2 : Nat), w.status = some s0 →
      (w.applyOp (WriterOp.writeHeader c2)).status = some s0) := by
  have hlast : (handlerState globalTP options next r).statusCode = c := by
    rw [handlerState, runBuffering_spec, hops]
    exact lastStatusOf_last_wins pre post c hpost
  refine ⟨fun s c'' => rfl, hlast, ?_, ?_, ?_⟩
  · simp [mkResponseInput, hlast, hc]
  · intro hval
    have hview := withResponseValidation_success_view globalTP eng options next r ri
      hbuild hval
    rw [hview.2.2.1, hlast]
    simp [hc]
  · intro w s0 c2 hw
    simp [RealWriter.applyOp, hw]

theorem bufferingWriteHeader_last_wins_witness :
    (handlerState 0 (defaultOptionsWith okRouter) doubleStatusHandler req0).statusCode
      = 404 ∧
    (clientAfterResponseStage 0 passEngine (defaultOptionsWith okRouter)
        doubleStatusHandler req0).clientStatus = 404 :=
  have h := bufferingWriteHeader_last_wins 0 passEngine (defaultOptionsWith okRouter)
    doubleStatusHandler req0 ⟨req0, [("userID", "123")], 0, none⟩
    [WriterOp.writeHeader 201] [WriterOp.write (Chunk.bytes [104])] 404
    rfl (by intro c' hc'; simp at hc') (by decide) rfl
  ⟨h.2.1, h.2.2.2.1 rfl⟩

/-- C1: for every request through the response-validation middleware exactly
one of two outcomes occurs: on validation success the client sees the
handler's captured body, recorded status (200 default) and headers,
delivered by `emit()`; on any failure the stage writes only the forwarded
header mutations plus an error reporter's replacement output — the captured
body is never emitted. -/
theorem withResponseValidation_exclusive_outcomes (globalTP : TracerProvider)
    (eng : ValidationEngine) (options : MiddlewareOptions) (next : Handler) (r : Request) :
    Xor'
      (respValidationPasses globalTP eng options next r = true ∧
        (WithResponseValidation globalTP eng options next r).ops
          = (handlerState globalTP options next r).hdrOps
            ++ (handlerState globalTP options next r).emitOps ∧
        (clientAfterResponseStage globalTP eng options next r).clientBody
          = (handlerState globalTP options next r).buf ∧
        (clientAfterResponseStage globalTP eng options next r).clientStatus
          = (if (handlerState globalTP options next r).statusCode = 0 then 200
             else (handlerState globalTP options next r).statusCode) ∧
        (clientAfterResponseStage globalTP eng options next r).clientHeaders
          = applyHeaderSets [] (handlerState globalTP options next r).headerSets)
      (respValidationPasses globalTP eng options next r = false ∧
        ∃ (err : GoError) (failOps : List WriterOp),
          (WithResponseValidation globalTP eng options next r).ops
            = (handlerState globalTP options next r).hdrOps ++ failOps ∧
          (failOps = options.reportFindRouteErrorOps r err ∨
           failOps = options.reportRespErrorOps r err)) := by
  by_cases hp : respValidationPasses globalTP eng options next r = true
  · cases hb : buildRequestValidationInputFromRequest options.router r
        options.validationOptions with
    | error err =>
      exfalso
      simp [respValidationPasses, hb] at hp
    | ok ri =>
      have hval : eng.validateResponse (stageCtx globalTP options r)
          (mkResponseInput ri (handlerState globalTP options next r)) = none := by
        simp [respValidationPasses, hb, Option.isNone_iff_eq_none] at hp
        simpa [handlerState, stageInnerRequest] using hp
      have hview := withResponseValidation_success_view globalTP eng options next r ri
        hb hval
      exact Or.inl ⟨⟨hp, hview.1, hview.2.1, hview.2.2.1, hview.2.2.2⟩,
        fun hB => by rw [hB.1] at hp; exact Bool.noConfusion hp⟩
  · have hpf : respValidationPasses globalTP eng options next r = false := by
      revert hp
      cases respValidationPasses globalTP eng options next r <;> simp
    refine Or.inr ⟨⟨hpf, ?_⟩, fun hA => by rw [hA.1] at hpf; exact Bool.noConfusion hpf⟩
    cases hb : buildRequestValidationInputFromRequest options.router r
        options.validationOptions with
    | error err =>
      cases hr : options.router r with
      | ok m =>
        exfalso
        unfold buildRequestValidationInputFromRequest at hb
        rw [hr] at hb
        cases hb
      | error cause =>
        have herr : err = .findRouteWrap cause := by
          unfold buildRequestValidationInputFromRequest at hb
          rw [hr] at hb
          injection hb with h
          exact h.symm
        refine ⟨cause, options.reportFindRouteErrorOps r cause, ?_, Or.inl rfl⟩
        unfold WithResponseValidation handlerState stageInnerRequest
        simp [hb, herr, GoError.asFindRouteErr]
    | ok ri =>
      have hsome : ∃ e, eng.validateResponse (stageCtx globalTP options r)
          (mkResponseInput ri (handlerState globalTP options next r)) = some e := by
        simp [respValidationPasses, hb, Option.isNone_iff_eq_none] at hpf
        cases hv : eng.validateResponse (stageCtx globalTP options r)
            (mkResponseInput ri (handlerState globalTP options next r)) with
        | none =>
          exfalso
          have hv2 : eng.validateResponse (stageCtx globalTP options r)
              (mkResponseInput ri (runBuffering
                (next (r.withContext (stageCtx globalTP options r))).ops)) = none := by
            simpa [handlerState, stageInnerRequest] using hv
          rw [hv2] at hpf
          simp at hpf
        | some e => exact ⟨e, rfl⟩
      obtain ⟨e, hv⟩ := hsome
      refine ⟨e, options.reportRespErrorOps r e, ?_, Or.inr rfl⟩
      have hv' := hv
      unfold handlerState stageInnerRequest at hv'
      unfold WithResponseValidation handlerState stageInnerRequest
      simp [hb, hv']

/-- C3: for every handler output accepted by response validation, the
capture buffer composed with `emit()` is the identity on the handler's
response: the client observes exactly the concatenation of the handler's
`Write` calls, the handler's (last recorded, 200 default) status code, and
the handler's final header map. -/
theorem capture_emit_roundtrip_identity (globalTP : TracerProvider)
    (eng : ValidationEngine) (options : MiddlewareOptions) (next : Handler) (r : Request)
    (ri : RequestValidationInput)
    (hbuild : buildRequestValidationInputFromRequest options.router r
      options.validationOptions = .ok ri)
    (hval : eng.validateResponse (stageCtx globalTP options r)
      (mkResponseInput ri (handlerState globalTP options next r)) = none) :
    (clientAfterResponseStage globalTP eng options next r).clientBody
      = writeChunksOf (next (stageInnerRequest globalTP options r)).ops ∧
    (clientAfterResponseStage globalTP eng options next r).clientStatus
      = (if lastStatusOf (next (stageInnerRequest globalTP options r)).ops = 0 then 200
         else lastStatusOf (next (stageInnerRequest globalTP options r)).ops) ∧
    (clientAfterResponseStage globalTP eng options next r).clientHeaders
      = applyHeaderSets []
          (headerSetsOf (next (stageInnerRequest globalTP options r)).ops) := by
  have hview := withResponseValidation_success_view globalTP eng options next r ri
    hbuild hval
  have hst : handlerState globalTP options next r
      = ⟨headerSetsOf (next (stageInnerRequest globalTP options r)).ops,
         writeChunksOf (next (stageInnerRequest globalTP options r)).ops,
         lastStatusOf (next (stageInnerRequest globalTP options r)).ops⟩ := by
    rw [handlerState, runBuffering_spec]
  refine ⟨?_, ?_, ?_⟩
  · rw [hview.2.1, hst]
  · rw [hview.2.2.1, hst]
  · rw [hview.2.2.2, hst]

theorem capture_emit_roundtrip_identity_witness :
    (clientAfterResponseStage 0 passEngine (defaultOptionsWith okRouter)
        bytesHandler req0).clientBody = [Chunk.bytes [123, 125]] ∧
    (clientAfterResponseStage 0 passEngine (defaultOptionsWith okRouter)
        bytesHandler req0).clientStatus = 200 ∧
    (clientAfterResponseStage 0 passEngine (defaultOptionsWith okRouter)
        bytesHandler req0).clientHeaders = [("content-type", "application/json")] :=
  have h := capture_emit_roundtrip_identity 0 passEngine (defaultOptionsWith okRouter)
    bytesHandler req0 ⟨req0, [("userID", "123")], 0, none⟩ rfl rfl
  ⟨h.1.trans (by decide), h.2.1.trans (by decide), h.2.2.trans (by decide)⟩

theorem withResponseValidation_exclusive_outcomes_witness :
    respValidationPasses 0 passEngine (defaultOptionsWith okRouter) bytesHandler req0
      = true ∧
    (clientAfterResponseStage 0 passEngine (defaultOptionsWith okRouter)
        bytesHandler req0).clientBody
      = (handlerState 0 (defaultOptionsWith okRouter) bytesHandler req0).buf := by
  rcases withResponseValidation_exclusive_outcomes 0 passEngine
      (defaultOptionsWith okRouter) bytesHandler req0 with ⟨hA, _⟩ | ⟨hB, _⟩
  · exact ⟨hA.1, hA.2.2.1⟩
  · exact absurd hB.1 (by decide)
